import Mathlib

set_option maxRecDepth 100000

/-!
Shallow embedding of the skottie-rs viewer (src/main.rs).

The embedding covers the parts of `main` that the specification's claims
are about: the frame-timing window and FPS emission at the top of the
event-loop closure (lines 105-114 and 135-142), the per-event handling
of the closure (close/escape, resize, redraw, main-events-cleared,
lines 144-199), the playback seek computation of the RedrawRequested arm
(lines 170-174), the file-extension asset dispatch (lines 116-130), and
the order of the one-time startup steps of `main`.

Durations are modelled as exact nanosecond counts (`Nat`), matching
Rust's `std::time::Duration`, which stores nanoseconds exactly.  The
floating-point seek computation `(now - start).as_secs_f64() % dur` is
modelled over `ℚ`: Rust's `%` on `f64` is IEEE-754 `fmod`, which is
computed exactly (no rounding), i.e. `x % d = x - d * trunc (x / d)`;
the rational model therefore reproduces it faithfully on representable
inputs.  Panics are modelled as `Except.error` carrying the panic
message.
-/

namespace Skottie

/-- Durations in nanoseconds, as Rust's `std::time::Duration` (exact). -/
abbrev Duration := Nat

/-- Capacity of the FPS measurement window: `let num_frames = 1000;` (line 110). -/
def numFrames : Nat := 1000

/-- Nanoseconds in one second: `time::Duration::new(1, 0).as_nanos()` (line 140). -/
def oneSecondNanos : Nat := 1000000000

/-- State of the event-loop closure of `main` that the claims observe:
the timing window `times`, the list of FPS values printed so far
(`emitted`, the console sink), the window's physical size, the size the
active Skia surface was created with, how many times `create_surface`
has run, and whether `ControlFlow::Exit` has been requested. -/
structure AppState where
  times : List Duration
  emitted : List Nat
  windowSize : Nat × Nat
  surfaceSize : Nat × Nat
  recreations : Nat
  exiting : Bool
deriving DecidableEq

/-- Events of the `winit` event loop that the closure in `main`
distinguishes (lines 144-199).  `redrawRequested` carries the
inter-frame duration `now - last` that the arm pushes at its end
(lines 190-193). -/
inductive AppEvent where
  | closeRequested
  | escapePressed
  | resized (size : Nat × Nat)
  | redrawRequested (dt : Duration)
  | mainEventsCleared
  | otherEvent
deriving DecidableEq

/-- Lines 135-142: at the top of every closure call, if
`times.len() >= num_frames`, drain the whole window (`times.drain(..)`),
average the first `num_frames` entries (`take(num_frames).sum / num_frames`)
and print `1s.as_nanos() / avg.as_nanos()`.  Rust's `u128` division
panics when `avg` is zero; the panic is the `Except.error` branch. -/
def fpsCheck (s : AppState) : Except String AppState :=
  if numFrames ≤ s.times.length then
    if (s.times.take numFrames).sum / numFrames = 0 then
      .error "attempt to divide by zero"
    else
      .ok { s with times := [],
                   emitted := s.emitted ++
                     [oneSecondNanos / ((s.times.take numFrames).sum / numFrames)] }
  else
    .ok s

/-- Lines 144-199: the per-event `match`.  Close request and Escape set
`ControlFlow::Exit`; `Resized(physical_size)` resizes the GL context and
re-runs `create_surface`, which reads the window's inner size (the size
the resize event reported); `RedrawRequested` seeks, renders, swaps and
then pushes `now - last` onto the window; `MainEventsCleared` only
requests a redraw. -/
def handleEvent (e : AppEvent) (s : AppState) : AppState :=
  match e with
  | .closeRequested => { s with exiting := true }
  | .escapePressed => { s with exiting := true }
  | .resized size =>
      { s with windowSize := size, surfaceSize := size,
               recreations := s.recreations + 1 }
  | .redrawRequested dt => { s with times := s.times ++ [dt] }
  | .mainEventsCleared => s
  | .otherEvent => s

/-- One call of the event-loop closure (lines 132-200): the FPS check
runs first, then the event is handled. -/
def stepEvent (s : AppState) (e : AppEvent) : Except String AppState :=
  match fpsCheck s with
  | .error msg => .error msg
  | .ok s1 => .ok (handleEvent e s1)

/-- Run the event loop over a list of events, stopping at a panic. -/
def run (s : AppState) : List AppEvent → Except String AppState
  | [] => .ok s
  | e :: es =>
      match stepEvent s e with
      | .error msg => .error msg
      | .ok s1 => run s1 es

/-- State right after startup (lines 101-114): the surface has been
created once at the window's initial size, and `times` already holds the
one push `times.push(now - last)` of line 112 (`d0 = now - last`). -/
def initState (d0 : Duration) (size : Nat × Nat) : AppState :=
  { times := [d0], emitted := [], windowSize := size, surfaceSize := size,
    recreations := 1, exiting := false }

/-- Truncation toward zero on `ℚ`, as IEEE `fmod`'s implicit quotient. -/
def truncQ (q : ℚ) : ℤ :=
  if 0 ≤ q then ⌊q⌋ else ⌈q⌉

/-- Rust's `%` on `f64` (IEEE `fmod`, exact): `x - d * trunc (x / d)`,
modelled over `ℚ` (line 173: `(now - start).as_secs_f64() % dur`). -/
def fmodQ (x d : ℚ) : ℚ :=
  x - d * (truncQ (x / d) : ℚ)

/-- The `Either<Animation, SvgDom>` value `to_render` (lines 117-130):
a Lottie animation with its declared duration in seconds, or an SVG DOM
with no time dimension. -/
inductive RenderableAsset where
  | timedAnimation (duration : ℚ)
  | staticGraphic
deriving DecidableEq

/-- Lines 170-174 of the `RedrawRequested` arm: for an animation, seek
to `(now - start).as_secs_f64() % dur`; return the argument passed to
`seek_time`, or `none` when no seek happens (the SVG case). -/
def advance (a : RenderableAsset) (startT nowT : ℚ) : Option ℚ :=
  match a with
  | .timedAnimation dur => some (fmodQ (nowT - startT) dur)
  | .staticGraphic => none

/-- Rust's `char::to_ascii_lowercase`: map `A`..`Z` to `a`..`z`, leave
every other character unchanged. -/
def asciiLower (c : Char) : Char :=
  if 65 ≤ c.toNat ∧ c.toNat ≤ 90 then Char.ofNat (c.toNat + 32) else c

/-- Rust's `str::to_ascii_lowercase` (line 119), characterwise. -/
def toAsciiLowercase (s : String) : String :=
  String.mk (s.data.map asciiLower)

/-- The panic message of line 129: `Unrecognized filetype: {:?}` applied
to the `Option<&str>` of the lowercased extension. -/
def unrecognizedMsg : Option String → String
  | none => "Unrecognized filetype: None"
  | some s => "Unrecognized filetype: Some(\"" ++ s ++ "\")"

/-- Lines 116-130: dispatch on the ASCII-lowercased file extension.
`animDecode` stands for the result of `Animation::read` (the declared
duration when decoding succeeds), `svgDecodeOk` for `SvgDom::read`
succeeding; decode failures hit the `expect` panics, any other
extension (including a missing one) hits the `panic!` of line 129. -/
def loadToRender (ext : Option String) (animDecode : Option ℚ)
    (svgDecodeOk : Bool) : Except String RenderableAsset :=
  let lowered := ext.map toAsciiLowercase
  if lowered = some "json" ∨ lowered = some "lottie" then
    match animDecode with
    | some d => .ok (.timedAnimation d)
    | none => .error "Failed to open lottie file"
  else if lowered = some "svg" then
    if svgDecodeOk then .ok .staticGraphic
    else .error "Failed to open lottie file"
  else
    .error (unrecognizedMsg lowered)

/-- One-time startup actions of `main`, in source order. -/
inductive StartupStep where
  | parseArgs
  | createEventLoop
  | buildWindow
  | makeContextCurrent
  | loadGlFunctions
  | createGrContext
  | queryFramebufferInfo
  | createInitialSurface
  | initFrameTimes
  | openInputFile
  | dispatchFiletype
  | runEventLoop
deriving DecidableEq, BEq

/-- The order in which `main` performs its startup steps: argument
parsing (lines 26-34), event-loop creation (line 37), window + GL
context construction (lines 41-55), `make_current` (line 58), GL symbol
loading (line 60), Skia context (line 62), framebuffer query (lines
64-72), initial surface (line 101), timing-window initialisation (lines
105-114), `File::open` (line 116), extension dispatch (lines 117-130),
and finally `event_loop.run` (line 132). -/
def startupOrder : List StartupStep :=
  [.parseArgs, .createEventLoop, .buildWindow, .makeContextCurrent,
   .loadGlFunctions, .createGrContext, .queryFramebufferInfo,
   .createInitialSurface, .initFrameTimes, .openInputFile,
   .dispatchFiletype, .runEventLoop]

/-- Helper: a non-full window passes the FPS check unchanged. -/
theorem fpsCheck_not_full (s : AppState) (h : s.times.length < numFrames) :
    fpsCheck s = .ok s := by
  unfold fpsCheck
  rw [if_neg (by omega)]

/-- Helper: a full window with nonzero average is drained entirely and
one FPS value is appended to the console sink. -/
theorem fpsCheck_full (s : AppState) (hfull : numFrames ≤ s.times.length)
    (havg : (s.times.take numFrames).sum / numFrames ≠ 0) :
    fpsCheck s =
      .ok { s with
            times := [],
            emitted := s.emitted ++
              [oneSecondNanos / ((s.times.take numFrames).sum / numFrames)] } := by
  unfold fpsCheck
  rw [if_pos hfull, if_neg havg]

/-- Helper: with a non-full window, one closure call is just the event
handler. -/
theorem stepEvent_not_full (s : AppState) (e : AppEvent)
    (h : s.times.length < numFrames) :
    stepEvent s e = .ok (handleEvent e s) := by
  unfold stepEvent
  rw [fpsCheck_not_full s h]

/-- Helper: unfolding one successful step of `run`. -/
theorem run_cons (s s1 : AppState) (e : AppEvent) (es : List AppEvent)
    (h : stepEvent s e = .ok s1) :
    run s (e :: es) = run s1 es := by
  have hdef : run s (e :: es) =
      match stepEvent s e with
      | .error msg => .error msg
      | .ok s2 => run s2 es := rfl
  rw [hdef, h]

/-- Helper: as long as the window stays within capacity, a block of
redraw events only appends its durations to the window. -/
theorem run_replicate_redraw (dt : Duration) (n : Nat) (s : AppState)
    (h : s.times.length + n ≤ numFrames) :
    run s (List.replicate n (AppEvent.redrawRequested dt)) =
      .ok { s with times := s.times ++ List.replicate n dt } := by
  induction n generalizing s with
  | zero => simp [run]
  | succ n ih =>
      rw [List.replicate_succ,
        run_cons s (handleEvent (AppEvent.redrawRequested dt) s) _ _
          (stepEvent_not_full s _ (by omega))]
      simp only [handleEvent]
      rw [ih { s with times := s.times ++ [dt] } (by simp; omega)]
      simp [List.replicate_succ]

/-- Helper: the FPS check never touches the window size, the surface,
the recreation count or the exit flag. -/
theorem fpsCheck_ok_fields (s s1 : AppState) (h : fpsCheck s = .ok s1) :
    s1.windowSize = s.windowSize ∧ s1.surfaceSize = s.surfaceSize ∧
    s1.recreations = s.recreations ∧ s1.exiting = s.exiting := by
  unfold fpsCheck at h
  split at h
  · split at h
    · exact Except.noConfusion h
    · injection h with h1
      subst h1
      exact ⟨rfl, rfl, rfl, rfl⟩
  · injection h with h1
    subst h1
    exact ⟨rfl, rfl, rfl, rfl⟩

/-- Claim C1, counterexample.  The claim states that after exactly
N = 1000 pushes of a duration into the timing window the window has been
drained to empty and exactly one FPS value has been emitted.  In the
code the capacity check sits at the top of the next closure call, so
immediately after the 1000th push (the initial push of line 112 followed
by 999 redraw frames) the window still holds all 1000 entries and
nothing has been emitted. -/
theorem frameTimer_window_counterexample :
    (run (initState 16000000 (800, 600))
        (List.replicate 999 (AppEvent.redrawRequested 16000000))).map
      (fun s => (s.times.length, s.emitted)) = .ok (numFrames, ([] : List Nat)) ∧
    numFrames = 1000 := by
  constructor
  · rw [run_replicate_redraw 16000000 999 (initState 16000000 (800, 600))
      (by simp [initState, numFrames])]
    simp [initState, Except.map, numFrames]
  · rfl

/-- Claim C1, amended.  After exactly k pushes, for every k ≤ N — the
startup push plus k-1 redraw frames — the window holds exactly k entries
and no FPS value has been emitted, including at k = N; the drain to
empty and the single FPS emission happen at the start of the next
event-loop closure call (the capacity check of lines 135-142), provided
the window's average is nonzero. -/
theorem frameTimer_window_amended (d0 dt : Duration) (w : Nat × Nat) :
    (∀ j : Nat, j + 1 ≤ numFrames →
      run (initState d0 w) (List.replicate j (AppEvent.redrawRequested dt)) =
        .ok { times := d0 :: List.replicate j dt, emitted := [], windowSize := w,
              surfaceSize := w, recreations := 1, exiting := false }) ∧
    (∀ s : AppState, numFrames ≤ s.times.length →
      (s.times.take numFrames).sum / numFrames ≠ 0 →
      fpsCheck s =
        .ok { s with
              times := [],
              emitted := s.emitted ++
                [oneSecondNanos / ((s.times.take numFrames).sum / numFrames)] }) := by
  constructor
  · intro j hj
    rw [run_replicate_redraw dt j (initState d0 w) (by simp [initState]; omega)]
    simp [initState]
  · intro s h1 h2
    exact fpsCheck_full s h1 h2

/-- Claim C1, witness for the amended theorem: a 501-entry window after
500 redraw frames with no emission, and the drain/emission of a full
1000-entry window of 16ms frames producing the single value 62 fps. -/
theorem frameTimer_window_amended_witness :
    (500 + 1 ≤ numFrames ∧
      run (initState 16000000 (640, 480))
          (List.replicate 500 (AppEvent.redrawRequested 16000000)) =
        .ok { times := 16000000 :: List.replicate 500 16000000, emitted := [],
              windowSize := (640, 480), surfaceSize := (640, 480),
              recreations := 1, exiting := false }) ∧
    (numFrames ≤ (List.replicate 1000 (16000000 : Duration)).length ∧
      ((List.replicate 1000 (16000000 : Duration)).take numFrames).sum / numFrames ≠ 0 ∧
      fpsCheck { times := List.replicate 1000 16000000, emitted := [],
                 windowSize := (640, 480), surfaceSize := (640, 480),
                 recreations := 1, exiting := false } =
        .ok { times := [], emitted := [62], windowSize := (640, 480),
              surfaceSize := (640, 480), recreations := 1, exiting := false }) := by
  have H := frameTimer_window_amended 16000000 16000000 (640, 480)
  have h1 : numFrames ≤ (List.replicate 1000 (16000000 : Duration)).length := by
    simp [numFrames]
  have h2 : ((List.replicate 1000 (16000000 : Duration)).take numFrames).sum / numFrames ≠ 0 := by
    simp [numFrames, List.take_replicate, List.sum_replicate]
  have h3 := H.2
    { times := List.replicate 1000 16000000, emitted := [],
      windowSize := (640, 480), surfaceSize := (640, 480),
      recreations := 1, exiting := false } h1 h2
  refine ⟨⟨by norm_num [numFrames], H.1 500 (by norm_num [numFrames])⟩, h1, h2, ?_⟩
  rw [h3]
  norm_num [numFrames, oneSecondNanos, List.take_replicate, List.sum_replicate]

/-- Claim C2 (code bug): a full window whose average duration is zero is
not guarded — the closure reaches the `u128` division
`Duration::new(1, 0).as_nanos() / avg.as_nanos()` with a zero divisor,
which panics, instead of skipping the emission or reporting a
sentinel. -/
theorem fps_division_by_zero_panics :
    fpsCheck { times := List.replicate numFrames 0, emitted := [],
               windowSize := (800, 600), surfaceSize := (800, 600),
               recreations := 1, exiting := false } =
      .error "attempt to divide by zero" := by
  unfold fpsCheck
  rw [if_pos (by simp), if_pos (by simp [List.take_replicate, List.sum_replicate])]

/-- Claim C9: whenever an FPS value is emitted, the window is emptied
completely — `times.drain(..)` drains every entry, while only the first
`num_frames` entries (`take`) contribute to the reported average — so no
leftover entry carries over into the next measurement cycle. -/
theorem drain_empties_window (s : AppState)
    (hfull : numFrames ≤ s.times.length)
    (havg : (s.times.take numFrames).sum / numFrames ≠ 0) :
    fpsCheck s =
      .ok { s with
            times := [],
            emitted := s.emitted ++
              [oneSecondNanos / ((s.times.take numFrames).sum / numFrames)] } :=
  fpsCheck_full s hfull havg

/-- Claim C9, witness: a window holding 1001 entries of 2ms is drained
to empty in one check; the eleventh-hundred-and-first entry does not
contribute to the average (500 fps from the first 1000 entries), yet it
is removed all the same. -/
theorem drain_empties_window_witness :
    numFrames ≤ (List.replicate 1001 (2000000 : Duration)).length ∧
    ((List.replicate 1001 (2000000 : Duration)).take numFrames).sum / numFrames ≠ 0 ∧
    fpsCheck { times := List.replicate 1001 2000000, emitted := [3],
               windowSize := (1, 1), surfaceSize := (1, 1),
               recreations := 1, exiting := false } =
      .ok { times := [], emitted := [3, 500], windowSize := (1, 1),
            surfaceSize := (1, 1), recreations := 1, exiting := false } := by
  have h1 : numFrames ≤ (List.replicate 1001 (2000000 : Duration)).length := by
    simp [numFrames]
  have h2 : ((List.replicate 1001 (2000000 : Duration)).take numFrames).sum / numFrames ≠ 0 := by
    simp [numFrames, List.take_replicate, List.sum_replicate]
  refine ⟨h1, h2, ?_⟩
  rw [drain_empties_window
    { times := List.replicate 1001 2000000, emitted := [3], windowSize := (1, 1),
      surfaceSize := (1, 1), recreations := 1, exiting := false } h1 h2]
  norm_num [numFrames, oneSecondNanos, List.take_replicate, List.sum_replicate]

/-- Helper: on nonnegative arguments the truncation is the floor. -/
theorem truncQ_of_nonneg (q : ℚ) (h : 0 ≤ q) : truncQ q = ⌊q⌋ :=
  if_pos h

/-- Helper: for nonnegative dividend and positive divisor, `fmodQ` is
the divisor times the fractional part of the quotient. -/
theorem fmodQ_eq_fract (x d : ℚ) (hx : 0 ≤ x) (hd : 0 < d) :
    fmodQ x d = d * Int.fract (x / d) := by
  have hq : 0 ≤ x / d := div_nonneg hx hd.le
  have hxd : d * (x / d) = x := by
    rw [mul_comm]
    exact div_mul_cancel₀ x hd.ne'
  unfold fmodQ
  rw [truncQ_of_nonneg _ hq, Int.fract, mul_sub, hxd]

/-- Helper: the seek argument is nonnegative. -/
theorem fmodQ_nonneg (x d : ℚ) (hx : 0 ≤ x) (hd : 0 < d) :
    0 ≤ fmodQ x d := by
  rw [fmodQ_eq_fract x d hx hd]
  exact mul_nonneg hd.le (Int.fract_nonneg _)

/-- Helper: the seek argument is below the duration. -/
theorem fmodQ_lt (x d : ℚ) (hx : 0 ≤ x) (hd : 0 < d) :
    fmodQ x d < d := by
  rw [fmodQ_eq_fract x d hx hd]
  calc d * Int.fract (x / d) < d * 1 :=
        mul_lt_mul_of_pos_left (Int.fract_lt_one _) hd
    _ = d := mul_one d

/-- Helper: at whole multiples of the duration the seek argument is
exactly zero. -/
theorem fmodQ_nat_mul (k : ℕ) (d : ℚ) (hd : 0 < d) :
    fmodQ ((k : ℚ) * d) d = 0 := by
  have hx : 0 ≤ (k : ℚ) * d := mul_nonneg (Nat.cast_nonneg k) hd.le
  rw [fmodQ_eq_fract _ d hx hd, mul_div_cancel_right₀ _ hd.ne']
  simp

/-- Claim C3: for every `now ≥ originTime` and strictly positive
duration, the seek argument `(now - originTime) mod duration` computed
by the RedrawRequested arm satisfies `0 ≤ localTime < duration`, and it
is exactly 0 whenever `now` sits at a whole multiple of the duration
past the origin (the wrap at the seam). -/
theorem looping_localTime_bounds (startT nowT dur : ℚ) (k : ℕ)
    (hnow : startT ≤ nowT) (hdur : 0 < dur) :
    (advance (RenderableAsset.timedAnimation dur) startT nowT =
        some (fmodQ (nowT - startT) dur) ∧
      0 ≤ fmodQ (nowT - startT) dur ∧ fmodQ (nowT - startT) dur < dur) ∧
    advance (RenderableAsset.timedAnimation dur) startT (startT + k * dur) =
      some 0 := by
  have hx : 0 ≤ nowT - startT := by linarith
  refine ⟨⟨rfl, fmodQ_nonneg _ _ hx hdur, fmodQ_lt _ _ hx hdur⟩, ?_⟩
  show some (fmodQ (startT + (k : ℚ) * dur - startT) dur) = some 0
  rw [show startT + (k : ℚ) * dur - startT = (k : ℚ) * dur by ring,
    fmodQ_nat_mul k dur hdur]

/-- Claim C3, witness: origin 0, now 7/2, duration 2 — the seek
argument is in `[0, 2)` and wraps to 0 at `now = 5 * 2`. -/
theorem looping_localTime_bounds_witness :
    (0 : ℚ) ≤ 7 / 2 ∧ (0 : ℚ) < 2 ∧
    ((advance (RenderableAsset.timedAnimation 2) 0 (7 / 2) =
        some (fmodQ (7 / 2 - 0) 2) ∧
      0 ≤ fmodQ ((7 : ℚ) / 2 - 0) 2 ∧ fmodQ ((7 : ℚ) / 2 - 0) 2 < 2) ∧
    advance (RenderableAsset.timedAnimation 2) 0 (0 + (5 : ℕ) * 2) = some 0) :=
  ⟨by norm_num, by norm_num,
    looping_localTime_bounds 0 (7 / 2) 2 5 (by norm_num) (by norm_num)⟩

/-- Claim C4: every frame, the RedrawRequested arm seeks a Lottie
animation to `(now - start) mod duration` — in particular to 1.5 when
the duration is 2.0 and `now = originTime + 3.5` — and performs no seek
at all for an SVG. -/
theorem advance_seek_behaviour :
    (∀ dur startT nowT : ℚ,
      advance (RenderableAsset.timedAnimation dur) startT nowT =
        some (fmodQ (nowT - startT) dur)) ∧
    (∀ startT nowT : ℚ,
      advance RenderableAsset.staticGraphic startT nowT = none) ∧
    advance (RenderableAsset.timedAnimation 2) 0 (0 + 7 / 2) = some (3 / 2) := by
  refine ⟨fun _ _ _ => rfl, fun _ _ => rfl, ?_⟩
  show some (fmodQ (0 + 7 / 2 - 0) 2) = some (3 / 2)
  norm_num [fmodQ, truncQ]

/-- Claim C5, counterexample: a Lottie asset whose declared duration is
0 is accepted at load time (the extension dispatch never inspects the
duration), not rejected. -/
theorem duration_validation_counterexample :
    loadToRender (some "lottie") (some 0) false =
      .ok (RenderableAsset.timedAnimation 0) := by
  rfl

/-- Claim C5, amended: the program performs no load-time validation of
the declared duration — a successfully decoded animation is accepted
whatever its duration, including zero or negative values, and the
degenerate duration flows into the per-frame seek computation. -/
theorem duration_validation_amended (d : ℚ) (svgOk : Bool) (_hd : d ≤ 0) :
    loadToRender (some "lottie") (some d) svgOk =
      .ok (RenderableAsset.timedAnimation d) ∧
    loadToRender (some "json") (some d) svgOk =
      .ok (RenderableAsset.timedAnimation d) ∧
    advance (RenderableAsset.timedAnimation d) 0 1 =
      some (fmodQ (1 - 0) d) := by
  exact ⟨rfl, rfl, rfl⟩

/-- Claim C5, witness: a duration of -1 is accepted by both timed
extensions and reaches the per-frame seek. -/
theorem duration_validation_amended_witness :
    (-1 : ℚ) ≤ 0 ∧
    (loadToRender (some "lottie") (some (-1)) false =
        .ok (RenderableAsset.timedAnimation (-1)) ∧
      loadToRender (some "json") (some (-1)) false =
        .ok (RenderableAsset.timedAnimation (-1)) ∧
      advance (RenderableAsset.timedAnimation (-1)) 0 1 =
        some (fmodQ (1 - 0) (-1))) :=
  ⟨by norm_num, duration_validation_amended (-1) false (by norm_num)⟩

/-- Claim C6, counterexample: the `.txt` dispatch does panic with the
"Unrecognized filetype" message, but the window is built (lines 41-55)
before the extension dispatch runs (lines 117-130), so the fatal error
cannot happen "before any window is created". -/
theorem txt_error_counterexample :
    loadToRender (some "txt") none false =
      .error "Unrecognized filetype: Some(\"txt\")" ∧
    List.indexOf StartupStep.buildWindow startupOrder <
      List.indexOf StartupStep.dispatchFiletype startupOrder :=
  ⟨rfl, by decide⟩

/-- Claim C6, amended: loading a `.txt` file terminates the program
with the fatal "Unrecognized filetype" error before the event loop
starts, but after the window and GL context have been created. -/
theorem txt_error_amended :
    loadToRender (some "txt") none false =
      .error "Unrecognized filetype: Some(\"txt\")" ∧
    List.indexOf StartupStep.dispatchFiletype startupOrder <
      List.indexOf StartupStep.runEventLoop startupOrder ∧
    List.indexOf StartupStep.buildWindow startupOrder <
      List.indexOf StartupStep.dispatchFiletype startupOrder :=
  ⟨rfl, by decide, by decide⟩

/-- Helper: a successful closure step is the FPS check followed by the
event handler. -/
theorem stepEvent_eq_ok (s s1 : AppState) (e : AppEvent)
    (h : stepEvent s e = .ok s1) :
    ∃ s0, fpsCheck s = .ok s0 ∧ s1 = handleEvent e s0 := by
  unfold stepEvent at h
  cases hfc : fpsCheck s with
  | error msg =>
      rw [hfc] at h
      exact Except.noConfusion h
  | ok s0 =>
      rw [hfc] at h
      have h1 : (Except.ok (handleEvent e s0) : Except String AppState) = .ok s1 := h
      injection h1 with h2
      exact ⟨s0, rfl, h2.symm⟩

/-- Claim C7: handling a resize event recreates the surface exactly
once (the recreation counter grows by exactly one), the new surface's
dimensions equal the reported physical size, and the next redraw step
draws against that surface unchanged (it only appends a frame time). -/
theorem surface_resize_invariant (s : AppState) (size : Nat × Nat)
    (s1 : AppState) (dt : Duration)
    (hstep : stepEvent s (AppEvent.resized size) = .ok s1)
    (hlen : s1.times.length < numFrames) :
    s1.surfaceSize = size ∧ s1.windowSize = size ∧
    s1.recreations = s.recreations + 1 ∧
    stepEvent s1 (AppEvent.redrawRequested dt) =
      .ok { s1 with times := s1.times ++ [dt] } := by
  obtain ⟨s0, hfc, hs1⟩ := stepEvent_eq_ok s s1 (AppEvent.resized size) hstep
  obtain ⟨hw, hsurf, hrec, hex⟩ := fpsCheck_ok_fields s s0 hfc
  subst hs1
  refine ⟨rfl, rfl, ?_, stepEvent_not_full _ _ hlen⟩
  show s0.recreations + 1 = s.recreations + 1
  rw [hrec]

/-- Claim C7, witness: resizing the startup state to (1024, 768)
recreates the surface once with exactly that size, and a following
redraw leaves the surface untouched. -/
theorem surface_resize_invariant_witness :
    stepEvent (initState 5 (800, 600)) (AppEvent.resized (1024, 768)) =
      .ok { times := [5], emitted := [], windowSize := (1024, 768),
            surfaceSize := (1024, 768), recreations := 2, exiting := false } ∧
    ([5] : List Duration).length < numFrames ∧
    (({ times := [5], emitted := [], windowSize := (1024, 768),
        surfaceSize := (1024, 768), recreations := 2,
        exiting := false } : AppState).surfaceSize = (1024, 768) ∧
      ({ times := [5], emitted := [], windowSize := (1024, 768),
         surfaceSize := (1024, 768), recreations := 2,
         exiting := false } : AppState).windowSize = (1024, 768) ∧
      ({ times := [5], emitted := [], windowSize := (1024, 768),
         surfaceSize := (1024, 768), recreations := 2,
         exiting := false } : AppState).recreations =
        (initState 5 (800, 600)).recreations + 1 ∧
      stepEvent { times := [5], emitted := [], windowSize := (1024, 768),
                  surfaceSize := (1024, 768), recreations := 2,
                  exiting := false } (AppEvent.redrawRequested 7) =
        .ok { times := [5, 7], emitted := [], windowSize := (1024, 768),
              surfaceSize := (1024, 768), recreations := 2,
              exiting := false }) := by
  have hstep : stepEvent (initState 5 (800, 600)) (AppEvent.resized (1024, 768)) =
      .ok { times := [5], emitted := [], windowSize := (1024, 768),
            surfaceSize := (1024, 768), recreations := 2, exiting := false } := by
    rfl
  have hlen : ({ times := [5], emitted := [], windowSize := (1024, 768),
                 surfaceSize := (1024, 768), recreations := 2,
                 exiting := false } : AppState).times.length < numFrames := by
    norm_num [numFrames]
  exact ⟨hstep, hlen, surface_resize_invariant _ _ _ 7 hstep hlen⟩

/-- Helper: the 26 upper-case ASCII letters shift to valid lower-case
code points. -/
theorem charOfNat_toNat_shift (n : Nat) (h1 : 65 ≤ n) (h2 : n ≤ 90) :
    (Char.ofNat (n + 32)).toNat = n + 32 := by
  interval_cases n <;> decide

/-- Helper: ASCII lowercasing a character twice is the same as once. -/
theorem asciiLower_idem (c : Char) :
    asciiLower (asciiLower c) = asciiLower c := by
  unfold asciiLower
  by_cases h : 65 ≤ c.toNat ∧ c.toNat ≤ 90
  · rw [if_pos h, if_neg]
    rw [charOfNat_toNat_shift c.toNat h.1 h.2]
    omega
  · rw [if_neg h, if_neg h]

/-- Helper: ASCII lowercasing a string twice is the same as once. -/
theorem toAsciiLowercase_idem (s : String) :
    toAsciiLowercase (toAsciiLowercase s) = toAsciiLowercase s := by
  have hcomp : asciiLower ∘ asciiLower = asciiLower := funext asciiLower_idem
  show String.mk (((s.data.map asciiLower)).map asciiLower) =
    String.mk (s.data.map asciiLower)
  rw [List.map_map, hcomp]

/-- Claim C8, counterexample: an unrecognized extension written in
upper case is reported lowercased — the panic message contains
`Some("txt")`, not the offending original spelling `Some("TXT")`. -/
theorem dispatch_case_counterexample :
    loadToRender (some "TXT") none false =
      .error "Unrecognized filetype: Some(\"txt\")" ∧
    ("Unrecognized filetype: Some(\"txt\")" : String) ≠
      "Unrecognized filetype: Some(\"TXT\")" :=
  ⟨rfl, by decide⟩

/-- Claim C8, amended: dispatch on the extension is case-insensitive —
`.json`/`.lottie` in any letter case select the Lottie decoder and
`.svg` the SVG decoder — and any other extension is a fatal
"Unrecognized filetype" error whose message reports the ASCII-lowercased
extension string (not necessarily the original spelling). -/
theorem dispatch_case_amended :
    (∀ (ext : Option String) (anim : Option ℚ) (svgOk : Bool),
      loadToRender (ext.map toAsciiLowercase) anim svgOk =
        loadToRender ext anim svgOk) ∧
    (∀ (d : ℚ) (svgOk : Bool),
      loadToRender (some "JSON") (some d) svgOk =
        .ok (RenderableAsset.timedAnimation d) ∧
      loadToRender (some "Lottie") (some d) svgOk =
        .ok (RenderableAsset.timedAnimation d) ∧
      loadToRender (some "SVG") none true = .ok RenderableAsset.staticGraphic) ∧
    (∀ (s : String) (anim : Option ℚ) (svgOk : Bool),
      toAsciiLowercase s ≠ "json" → toAsciiLowercase s ≠ "lottie" →
      toAsciiLowercase s ≠ "svg" →
      loadToRender (some s) anim svgOk =
        .error ("Unrecognized filetype: Some(\"" ++ toAsciiLowercase s ++ "\")")) := by
  refine ⟨?_, ?_, ?_⟩
  · intro ext anim svgOk
    have hcomp : toAsciiLowercase ∘ toAsciiLowercase = toAsciiLowercase :=
      funext toAsciiLowercase_idem
    unfold loadToRender
    rw [Option.map_map, hcomp]
  · intro d svgOk
    exact ⟨rfl, rfl, rfl⟩
  · intro s anim svgOk h1 h2 h3
    have hne1 : ¬(Option.map toAsciiLowercase (some s) = some "json" ∨
        Option.map toAsciiLowercase (some s) = some "lottie") := by
      simp [h1, h2]
    have hne2 : Option.map toAsciiLowercase (some s) ≠ some "svg" := by
      simp [h3]
    simp only [loadToRender]
    rw [if_neg hne1, if_neg hne2]
    rfl

/-- Claim C8, witness: the `.exe` extension is not a recognized one and
produces the fatal error with the lowercased extension in the message. -/
theorem dispatch_case_amended_witness :
    (toAsciiLowercase "exe" ≠ "json" ∧ toAsciiLowercase "exe" ≠ "lottie" ∧
      toAsciiLowercase "exe" ≠ "svg") ∧
    loadToRender (some "exe") none false =
      .error ("Unrecognized filetype: Some(\"" ++ toAsciiLowercase "exe" ++ "\")") :=
  ⟨⟨by decide, by decide, by decide⟩,
    dispatch_case_amended.2.2 "exe" none false (by decide) (by decide) (by decide)⟩

/-- Claim C10: an input path with no extension at all falls into the
same fallback arm of the dispatch and panics with the fatal
"Unrecognized filetype" error, reporting the absent extension as
`None`. -/
theorem no_extension_fatal (animDecode : Option ℚ) (svgDecodeOk : Bool) :
    loadToRender none animDecode svgDecodeOk =
      .error "Unrecognized filetype: None" := by
  rfl

end Skottie
